import Mathlib

/-!
Verification development for the multi-step orchestration engine
(`orchestrator.js`): the archetype catalog, the phase lifecycle and the
`Orchestrator` state machine (`selectArchetype`, `proposeNextPhase`,
`confirmPhase`, `skipPhase`, `completeDeploymentPhase`).

The JavaScript class is embedded shallowly as pure functions over an
explicit `OrchState` record.  Conventions of the embedding:

* The event callback (`this.emit`) is modelled by an `events` list inside
  the state, appended in emission order.
* The external generation gateway (`generatePhaseWithCopilot`) is an
  argument of `confirmPhase`: a `GwResult` is either the `{files, summary}`
  record the gateway resolves with, or the message of the
  `GenerationFailed` error it rejects with.
* JavaScript exceptions are modelled by an `Except OrchError _` outcome
  paired with the post-call state: a throw that happens after mutations
  (the catch block of `confirmPhase`) keeps those mutations, a throw that
  happens before any mutation returns the state unchanged.
* Reading a property of `undefined` (indexing `state.phases` out of
  range) is modelled as an `OrchError.TypeError` outcome.
* `lastProposal` is a ghost history variable (not present in the source):
  it records the phase index named by the most recent `phase_proposal`
  event and is used only to state claims that speak about "the index most
  recently returned by `proposeNextPhase`".  No operation reads it.
* The file-system dependent parts (`validatePhase` existence checks,
  `listExistingFiles`, prompt construction) only influence the prompt text
  and non-fatal warnings attached to gateway results; no claim depends on
  them and they are not modelled.
-/

set_option maxRecDepth 4000

namespace AppCreator

/-- Status of a single phase record: the string constants of the source
(`pending`, `in_progress`, `completed`, `skipped`, `error`). -/
inductive PhaseStatus
  | pending
  | in_progress
  | completed
  | skipped
  | error
deriving DecidableEq, Repr

/-- Orchestrator-level status (`this.state.status`). -/
inductive OrchStatus
  | initializing
  | planning
  | awaiting_confirmation
  | generating
  | completed
  | error
deriving DecidableEq, Repr

/-- Outcome of one invocation of the generation gateway
(`generatePhaseWithCopilot`): resolves with `{files, summary}` or rejects
with `GenerationFailed(message)`. -/
inductive GwResult
  | ok (files : List String) (summary : String)
  | fail (message : String)
deriving DecidableEq, Repr

/-- The result object produced by `executePhase` (the fields of the source
that the orchestrator reads; `success` and `warnings` are never read by
the orchestrator and are omitted). -/
structure ExecResult where
  files : List String
  summary : String
  requiresDeployment : Bool := false
  requiresValidation : Bool := false
  deploymentType : Option String := none
deriving DecidableEq, Repr

/-- A phase template of the archetype catalog.  Absent JavaScript fields
(`optional`, `isValidation`, ...) are falsy, hence default `false`. -/
structure PhaseTemplate where
  id : String
  name : String
  description : String
  files : List String := []
  optional : Bool := false
  isValidation : Bool := false
  isDeployment : Bool := false
  isAzureDeployment : Bool := false
deriving DecidableEq, Repr

/-- A phase record as instantiated by `selectArchetype`:
`{...template, index, status: "pending", files: []}` — the spread copies
the template fields and then overwrites `files` with `[]`, so the record
holds a single `files` field (run-time produced paths). -/
structure Phase where
  id : String
  name : String
  description : String
  files : List String
  optional : Bool
  isValidation : Bool
  isDeployment : Bool
  isAzureDeployment : Bool
  index : Nat
  status : PhaseStatus
  result : Option ExecResult := none
  error : Option String := none
deriving DecidableEq, Repr

/-- An entry of the archetype catalog. -/
structure Archetype where
  name : String
  description : String
  stack : List String
  phases : List PhaseTemplate
deriving DecidableEq, Repr

/-- The optional attachment accompanying the user request; only its
`content` is read by the orchestrator. -/
structure Attachment where
  content : String
deriving DecidableEq, Repr

/-- An entry of `this.state.errors`: `{phase: phase.id, error: message}`. -/
structure ErrorEntry where
  phase : String
  error : String
deriving DecidableEq, Repr

/-- The outcome record passed to `completeDeploymentPhase` by the
deployment/validation gateway integration. -/
structure DeploymentResult where
  success : Bool
  summary : Option String
deriving DecidableEq, Repr

/-- The typed events emitted through `this.emit(type, data)`.  Constructor
names follow the source event type strings (`statusMsg` stands for the
`status` event, `completedRun` for the `completed` event). -/
inductive Event
  | plan (archetypeName : String) (phases : List Phase)
  | statusMsg (message : String)
  | phase_proposal (phase : Phase) (phaseIndex : Nat) (totalPhases : Nat)
      (message : String) (description : String)
  | phase_start (phase : Phase) (phaseIndex : Nat) (totalPhases : Nat)
  | phase_complete (phase : Phase) (phaseIndex : Nat) (files : List String)
      (summary : String) (deploymentResult : Option DeploymentResult)
  | phase_error (phase : Phase) (phaseIndex : Nat) (message : String)
  | phase_skipped (phase : Phase) (phaseIndex : Nat)
  | docker_deploy_ready (phase : Phase) (phaseIndex : Nat) (workspaceDir : String)
  | azure_deploy_ready (phase : Phase) (phaseIndex : Nat) (workspaceDir : String)
      (files : List String)
  | validation_ready (phase : Phase) (phaseIndex : Nat) (workspaceDir : String)
  | completedRun (workspace : String) (files : List String)
  | log (text : String)
  | console_trace (text : String) (level : String)
deriving DecidableEq, Repr

/-- The errors thrown by the orchestrator, following the spec taxonomy.
`TypeError` models a JavaScript runtime type error (property access on
`undefined`). -/
inductive OrchError
  | UnknownArchetype (id : String)
  | PhaseMismatch
  | PhaseNotOptional (name : String)
  | GenerationFailed (message : String)
  | TypeError (message : String)
deriving DecidableEq, Repr

/-- `error.message` of each modelled error, as produced by the source. -/
def OrchError.message : OrchError → String
  | OrchError.UnknownArchetype id => "Unknown archetype: " ++ id
  | OrchError.PhaseMismatch => "Phase mismatch - cannot confirm a different phase"
  | OrchError.PhaseNotOptional n => "Phase \"" ++ n ++ "\" is required and cannot be skipped"
  | OrchError.GenerationFailed m => m
  | OrchError.TypeError m => m

/-- `this.state` of the `Orchestrator`, plus the emitted event list and the
ghost `lastProposal` history variable. -/
structure OrchState where
  workspaceDir : String
  archetype : Option String := none
  userPrompt : String := ""
  attachment : Option Attachment := none
  phases : List Phase := []
  currentPhaseIndex : Int := -1
  status : OrchStatus := OrchStatus.initializing
  generatedFiles : List String := []
  errors : List ErrorEntry := []
  events : List Event := []
  lastProposal : Option Nat := none
deriving DecidableEq, Repr

/-- The `Orchestrator` constructor. -/
def initState (workspaceDir : String) : OrchState :=
  { workspaceDir := workspaceDir }

/-- `this.emit(type, data)`: append one event to the stream. -/
def emit (s : OrchState) (e : Event) : OrchState :=
  { s with events := s.events ++ [e] }

/-! ## The archetype catalog (`ARCHETYPES`) -/

/-- `ARCHETYPES["fastapi-sqlite"]`. -/
def fastapiSqliteArch : Archetype :=
  { name := "FastAPI + SQLite Backend"
    description := "Python REST API with SQLite database, JWT authentication, and comprehensive tests"
    stack := ["Python", "FastAPI", "SQLite", "Pydantic", "SQLAlchemy", "pytest"]
    phases :=
      [ { id := "setup", name := "Project Setup"
          description := "Create requirements.txt, README.md, and project structure"
          files := ["requirements.txt", "README.md", "app/__init__.py", "tests/__init__.py"] }
      , { id := "database", name := "Database Layer"
          description := "SQLAlchemy models and database configuration"
          files := ["app/database.py", "app/models.py"] }
      , { id := "schemas", name := "API Schemas"
          description := "Pydantic schemas for request/response validation"
          files := ["app/schemas.py"] }
      , { id := "auth", name := "Authentication"
          description := "JWT-based authentication with password hashing"
          files := ["app/auth.py"], optional := true }
      , { id := "crud", name := "CRUD Operations"
          description := "Database operations for all models"
          files := ["app/crud.py"] }
      , { id := "api", name := "API Endpoints"
          description := "FastAPI routes for all resources"
          files := ["app/main.py", "app/routers/*.py"] }
      , { id := "tests", name := "Test Suite"
          description := "Comprehensive pytest tests for all endpoints"
          files := ["tests/test_*.py"] }
      , { id := "validate", name := "Validation & Fixes"
          description := "Run tests and fix any issues"
          files := [], isValidation := true }
      , { id := "docker-run", name := "Run in Docker"
          description := "Package and run the application in Docker locally"
          files := [], isDeployment := true }
      , { id := "azure-deploy", name := "Deploy to Azure"
          description := "Generate Bicep template and deploy to Azure Container Apps"
          files := ["infra/main.bicep", "infra/main.bicepparam"]
          isAzureDeployment := true, optional := true } ] }

/-- `ARCHETYPES["react-fastapi"]`. -/
def reactFastapiArch : Archetype :=
  { name := "React + FastAPI Full-Stack"
    description := "React frontend with FastAPI backend, SQLite database, and full authentication"
    stack := ["React", "TypeScript", "Vite", "Python", "FastAPI", "SQLite"]
    phases :=
      [ { id := "backend-setup", name := "Backend Setup"
          description := "FastAPI project structure and dependencies"
          files := ["backend/requirements.txt", "backend/app/__init__.py"] }
      , { id := "backend-database", name := "Backend Database"
          description := "SQLAlchemy models and database configuration"
          files := ["backend/app/database.py", "backend/app/models.py", "backend/app/schemas.py"] }
      , { id := "backend-api", name := "Backend API"
          description := "FastAPI routes and authentication"
          files := ["backend/app/main.py", "backend/app/auth.py"] }
      , { id := "backend-tests", name := "Backend Tests"
          description := "API tests with pytest"
          files := ["backend/tests/test_*.py"] }
      , { id := "frontend-setup", name := "Frontend Setup"
          description := "React + Vite project with TypeScript"
          files := ["frontend/package.json", "frontend/vite.config.ts", "frontend/tsconfig.json"] }
      , { id := "frontend-components", name := "Frontend Components"
          description := "React components and pages"
          files := ["frontend/src/App.tsx", "frontend/src/components/*.tsx", "frontend/src/pages/*.tsx"] }
      , { id := "frontend-api", name := "Frontend API Integration"
          description := "API client and hooks for backend communication"
          files := ["frontend/src/api/*.ts", "frontend/src/hooks/*.ts"] }
      , { id := "integration", name := "Integration & Deployment"
          description := "Docker Compose for running both services"
          files := ["docker-compose.yml", "README.md"] }
      , { id := "docker-run", name := "Run in Docker"
          description := "Package and run the application in Docker locally"
          files := [], isDeployment := true }
      , { id := "azure-deploy", name := "Deploy to Azure"
          description := "Generate Bicep template and deploy to Azure Container Apps"
          files := ["infra/main.bicep", "infra/main.bicepparam"]
          isAzureDeployment := true, optional := true } ] }

/-- `ARCHETYPES["nodejs-express"]`. -/
def nodejsExpressArch : Archetype :=
  { name := "Node.js + Express Backend"
    description := "Express.js REST API with SQLite database and JWT authentication"
    stack := ["Node.js", "Express", "SQLite", "better-sqlite3", "Jest"]
    phases :=
      [ { id := "setup", name := "Project Setup"
          description := "Create package.json, README.md, and project structure"
          files := ["package.json", "README.md", "src/index.js"] }
      , { id := "database", name := "Database Layer"
          description := "SQLite setup and model definitions"
          files := ["src/db/database.js", "src/db/migrations/*.js"] }
      , { id := "models", name := "Data Models"
          description := "Model classes with validation"
          files := ["src/models/*.js"] }
      , { id := "auth", name := "Authentication"
          description := "JWT authentication middleware"
          files := ["src/middleware/auth.js", "src/routes/auth.js"] }
      , { id := "routes", name := "API Routes"
          description := "Express routes for all resources"
          files := ["src/routes/*.js"] }
      , { id := "tests", name := "Test Suite"
          description := "Jest tests for all endpoints"
          files := ["tests/*.test.js"] }
      , { id := "validate", name := "Validation & Fixes"
          description := "Run tests and fix any issues"
          files := [], isValidation := true }
      , { id := "docker-run", name := "Run in Docker"
          description := "Package and run the application in Docker locally"
          files := [], isDeployment := true }
      , { id := "azure-deploy", name := "Deploy to Azure"
          description := "Generate Bicep template and deploy to Azure Container Apps"
          files := ["infra/main.bicep", "infra/main.bicepparam"]
          isAzureDeployment := true, optional := true } ] }

/-- `ARCHETYPES["custom"]`: phases are generated dynamically. -/
def customArch : Archetype :=
  { name := "Custom Architecture"
    description := "AI will analyze your requirements and propose a custom architecture"
    stack := ["Determined by AI based on requirements"]
    phases := [] }

/-- The catalog `ARCHETYPES`, as an association list in source order. -/
def ARCHETYPES : List (String × Archetype) :=
  [ ("fastapi-sqlite", fastapiSqliteArch)
  , ("react-fastapi", reactFastapiArch)
  , ("nodejs-express", nodejsExpressArch)
  , ("custom", customArch) ]

/-- `ARCHETYPES[archetypeId]` (property lookup; `none` is `undefined`). -/
def findArchetype (archetypeId : String) : Option Archetype :=
  (ARCHETYPES.find? (fun kv => kv.1 = archetypeId)).map (fun kv => kv.2)

/-! ## Custom-archetype phase inference (`generateCustomPhases`) -/

/-- Whether `pat` matches `text` starting at its head. -/
def matchHere : List Char → List Char → Bool
  | [], _ => true
  | _ :: _, [] => false
  | p :: ps, c :: cs => p == c && matchHere ps cs

/-- Whether `pat` occurs somewhere inside `text`. -/
def findSub : List Char → List Char → Bool
  | pat, [] => matchHere pat []
  | pat, c :: cs => matchHere pat (c :: cs) || findSub pat cs

/-- Case-insensitive substring test: the meaning of `/lit/i.test(text)` for
a regex that is an alternation of literals. -/
def containsCI (text pat : String) : Bool :=
  findSub pat.toLower.data text.toLower.data

/-- `userPrompt + (attachment?.content || "")`. -/
def combinedText (userPrompt : String) (attachment : Option Attachment) : String :=
  userPrompt ++ (match attachment with
    | some a => a.content
    | none => "")

/-- `/auth|login|user|password|jwt|session/i.test(...)`. -/
def hasAuth (userPrompt : String) (attachment : Option Attachment) : Bool :=
  ["auth", "login", "user", "password", "jwt", "session"].any
    (containsCI (combinedText userPrompt attachment))

/-- `/frontend|react|vue|angular|ui|interface|web app/i.test(...)`. -/
def hasFrontend (userPrompt : String) (attachment : Option Attachment) : Bool :=
  ["frontend", "react", "vue", "angular", "ui", "interface", "web app"].any
    (containsCI (combinedText userPrompt attachment))

/-- `/database|db|sql|postgres|mysql|mongo|storage/i.test(...)`. -/
def hasDatabase (userPrompt : String) (attachment : Option Attachment) : Bool :=
  ["database", "db", "sql", "postgres", "mysql", "mongo", "storage"].any
    (containsCI (combinedText userPrompt attachment))

/-- The template list pushed by `generateCustomPhases`, in push order. -/
def customTemplates (userPrompt : String) (attachment : Option Attachment) : List PhaseTemplate :=
  [{ id := "setup", name := "Project Setup", description := "Dependencies and project structure" }]
  ++ (if hasDatabase userPrompt attachment then
        [ { id := "database", name := "Database Layer", description := "Database models and configuration" }
        , { id := "schemas", name := "Data Schemas", description := "Validation schemas" } ]
      else [])
  ++ (if hasAuth userPrompt attachment then
        [{ id := "auth", name := "Authentication", description := "User authentication and authorization" }]
      else [])
  ++ [ { id := "core", name := "Core Logic", description := "Main application logic and business rules" }
     , { id := "api", name := "API Layer", description := "API endpoints and routes" } ]
  ++ (if hasFrontend userPrompt attachment then
        [{ id := "frontend", name := "Frontend", description := "User interface components" }]
      else [])
  ++ [ { id := "tests", name := "Test Suite", description := "Automated tests" }
     , { id := "validate", name := "Validation", description := "Run tests and fix issues" } ]

/-- `{...p, index, status: "pending", files: []}`. -/
def instantiateTemplate (t : PhaseTemplate) (index : Nat) : Phase :=
  { id := t.id, name := t.name, description := t.description, files := []
    optional := t.optional, isValidation := t.isValidation
    isDeployment := t.isDeployment, isAzureDeployment := t.isAzureDeployment
    index := index, status := PhaseStatus.pending }

/-- `templates.map((p, index) => ({...p, index, status: "pending", files: []}))`,
with the running index made explicit. -/
def instantiateFrom : List PhaseTemplate → Nat → List Phase
  | [], _ => []
  | t :: ts, n => instantiateTemplate t n :: instantiateFrom ts (n + 1)

/-- `generateCustomPhases(userPrompt, attachment)`. -/
def generateCustomPhases (userPrompt : String) (attachment : Option Attachment) : List Phase :=
  instantiateFrom (customTemplates userPrompt attachment) 0

/-! ## Orchestrator operations -/

/-- `selectArchetype(archetypeId, userPrompt, attachment)`.  Returns the
post-call state and either the populated phase list or the thrown error. -/
def selectArchetype (s : OrchState) (archetypeId : String) (userPrompt : String)
    (attachment : Option Attachment) : OrchState × Except OrchError (List Phase) :=
  match findArchetype archetypeId with
  | none => (s, Except.error (OrchError.UnknownArchetype archetypeId))
  | some arch =>
    let s1 := { s with archetype := some archetypeId, userPrompt := userPrompt
                       attachment := attachment }
    let s2 :=
      if archetypeId = "custom" then
        let sE := emit s1 (Event.statusMsg ("Analyzing requirements to propose architecture..."))
        { sE with phases := generateCustomPhases userPrompt attachment }
      else
        { s1 with phases := instantiateFrom arch.phases 0 }
    let s3 := { s2 with status := OrchStatus.planning }
    let s4 := emit s3 (Event.plan arch.name s3.phases)
    (s4, Except.ok s4.phases)

/-- `getNextPhase()` unrolled: first phase with status `pending`, together
with its index (the source pairs `findIndex` with an array access). -/
def findPendingFrom : List Phase → Nat → Option (Nat × Phase)
  | [], _ => none
  | p :: ps, n =>
    if p.status = PhaseStatus.pending then some (n, p) else findPendingFrom ps (n + 1)

/-- `getNextPhase()`: `{phase, index}` of the first pending phase, or null. -/
def getNextPhase (s : OrchState) : Option (Nat × Phase) :=
  findPendingFrom s.phases 0

/-- `proposeNextPhase()`: terminal `completed` emission when no phase is
pending, otherwise an `awaiting_confirmation` transition plus a
`phase_proposal` event.  Also updates the ghost `lastProposal`. -/
def proposeNextPhase (s : OrchState) : OrchState × Option Phase :=
  match getNextPhase s with
  | none =>
    let s1 := { s with status := OrchStatus.completed }
    (emit s1 (Event.completedRun s1.workspaceDir s1.generatedFiles), none)
  | some (i, p) =>
    let s1 := { s with status := OrchStatus.awaiting_confirmation, lastProposal := some i }
    (emit s1 (Event.phase_proposal p i s1.phases.length
        ("Ready to generate: " ++ p.name) p.description), some p)

/-- `executePhase(phase)`: dispatch by kind flags, in source order
(`isDeployment`, then `isAzureDeployment`, then `isValidation`, else the
generation gateway).  Emits the branch's log/trace events and returns the
result record or the gateway failure. -/
def executePhase (s : OrchState) (phase : Phase) (gw : GwResult) :
    OrchState × Except OrchError ExecResult :=
  if phase.isDeployment then
    (emit s (Event.log ("\n🐳 Packaging and running application in Docker...\n")),
     Except.ok { files := [], summary := "Docker deployment initiated"
                 deploymentType := some "docker", requiresDeployment := true })
  else if phase.isAzureDeployment then
    let s1 := emit (emit s (Event.log ("\n☁️ Preparing Azure deployment...\n")))
      (Event.console_trace ("Starting Azure infrastructure generation") ("info"))
    match gw with
    | GwResult.fail msg => (s1, Except.error (OrchError.GenerationFailed msg))
    | GwResult.ok files summary =>
      (s1, Except.ok { files := files, summary := summary
                       deploymentType := some "azure", requiresDeployment := true })
  else if phase.isValidation then
    let s1 := emit (emit s (Event.log ("\n🧪 Running tests to validate generated code...\n")))
      (Event.console_trace ("Initiating validation phase") ("info"))
    (s1, Except.ok { files := [], summary := "Validation initiated"
                     deploymentType := some "validation", requiresValidation := true })
  else
    match gw with
    | GwResult.fail msg => (s, Except.error (OrchError.GenerationFailed msg))
    | GwResult.ok files summary => (s, Except.ok { files := files, summary := summary })

/-- The catch block of `confirmPhase`: mark the phase `error`, record the
error entry, emit `phase_error`. -/
def confirmFailure (s : OrchState) (i : Nat) (phase1 : Phase) (e : OrchError) : OrchState :=
  let phase2 : Phase := { phase1 with status := PhaseStatus.error, error := some e.message }
  let s1 := { s with phases := s.phases.set i phase2
                     errors := s.errors ++ [{ phase := phase1.id, error := e.message }] }
  emit s1 (Event.phase_error phase2 i e.message)

/-- `phase.status = "completed"; phase.files = result.files || [];
phase.result = result` applied to the addressed record. -/
def completedOf (phase1 : Phase) (result : ExecResult) : Phase :=
  { phase1 with status := PhaseStatus.completed, files := result.files, result := some result }

/-- The success tail of `confirmPhase`: mark the phase `completed`, append
its files, emit the kind-dependent event, and auto-advance unless the
result suspends for deployment or validation. -/
def confirmSuccess (s : OrchState) (i : Nat) (phase1 : Phase) (result : ExecResult) :
    OrchState × Except OrchError Unit :=
  let phase2 : Phase := completedOf phase1 result
  let s1 := { s with phases := s.phases.set i phase2
                     generatedFiles := s.generatedFiles ++ result.files }
  let s2 :=
    if result.requiresDeployment = true ∧ result.deploymentType = some "docker" then
      emit s1 (Event.docker_deploy_ready phase2 i s1.workspaceDir)
    else if result.requiresDeployment = true ∧ result.deploymentType = some "azure" then
      emit s1 (Event.azure_deploy_ready phase2 i s1.workspaceDir result.files)
    else if result.requiresValidation = true then
      emit s1 (Event.validation_ready phase2 i s1.workspaceDir)
    else
      emit s1 (Event.phase_complete phase2 i result.files result.summary none)
  if result.requiresDeployment = false ∧ result.requiresValidation = false then
    ((proposeNextPhase s2).1, Except.ok ())
  else (s2, Except.ok ())

/-- `phase.status = "in_progress"` applied to the addressed record. -/
def inProgressOf (phase0 : Phase) : Phase :=
  { phase0 with status := PhaseStatus.in_progress }

/-- The head of `confirmPhase` after the guard: mark the phase
`in_progress`, set `currentPhaseIndex`, move to `generating`, emit
`phase_start`. -/
def confirmStart (s : OrchState) (i : Nat) (phase0 : Phase) : OrchState :=
  let phase1 := inProgressOf phase0
  let s1 := { s with phases := s.phases.set i phase1
                     currentPhaseIndex := (i : Int)
                     status := OrchStatus.generating }
  emit s1 (Event.phase_start phase1 i s1.phases.length)

/-- `confirmPhase(phaseIndex)`, with the gateway outcome as an argument.
The guard is the source's `phaseIndex !== this.getNextPhase()?.index`. -/
def confirmPhase (s : OrchState) (phaseIndex : Int) (gw : GwResult) :
    OrchState × Except OrchError Unit :=
  match getNextPhase s with
  | none => (s, Except.error OrchError.PhaseMismatch)
  | some (i, _) =>
    if phaseIndex = (i : Int) then
      match s.phases.get? i with
      | none => (s, Except.error (OrchError.TypeError ("Cannot read properties of undefined (reading status)")))
      | some phase0 =>
        match executePhase (confirmStart s i phase0) (inProgressOf phase0) gw with
        | (s3, Except.error e) => (confirmFailure s3 i (inProgressOf phase0) e, Except.error e)
        | (s3, Except.ok result) => confirmSuccess s3 i (inProgressOf phase0) result
    else (s, Except.error OrchError.PhaseMismatch)

/-- `deploymentResult.summary || "Deployment completed"` (JavaScript `||`:
an empty string is falsy). -/
def jsOrDefault (v : Option String) (d : String) : String :=
  match v with
  | some t => if t = "" then d else t
  | none => d

/-- `skipPhase(phaseIndex)`: only the `optional` flag is validated; an
out-of-range index hits `phase.optional` on `undefined`. -/
def skipPhase (s : OrchState) (phaseIndex : Int) : OrchState × Except OrchError (Option Phase) :=
  match (if 0 ≤ phaseIndex then s.phases.get? phaseIndex.toNat else none) with
  | none => (s, Except.error (OrchError.TypeError ("Cannot read properties of undefined (reading optional)")))
  | some phase =>
    if phase.optional = false then
      (s, Except.error (OrchError.PhaseNotOptional phase.name))
    else
      let phase2 := { phase with status := PhaseStatus.skipped }
      let s1 := { s with phases := s.phases.set phaseIndex.toNat phase2 }
      let s2 := emit s1 (Event.phase_skipped phase2 phaseIndex.toNat)
      let pr := proposeNextPhase s2
      (pr.1, Except.ok pr.2)

/-- `completeDeploymentPhase(phaseIndex, deploymentResult)`: no bounds or
status validation; an out-of-range index hits `phase.files` on
`undefined` before any event is emitted. -/
def completeDeploymentPhase (s : OrchState) (phaseIndex : Int)
    (deploymentResult : DeploymentResult) : OrchState × Except OrchError (Option Phase) :=
  match (if 0 ≤ phaseIndex then s.phases.get? phaseIndex.toNat else none) with
  | none => (s, Except.error (OrchError.TypeError ("Cannot read properties of undefined (reading files)")))
  | some phase =>
    let s1 := emit s (Event.phase_complete phase phaseIndex.toNat phase.files
      (jsOrDefault deploymentResult.summary ("Deployment completed")) (some deploymentResult))
    let pr := proposeNextPhase s1
    (pr.1, Except.ok pr.2)

/-! ## Step relation and reachability -/

/-- One invocation of any public orchestrator operation, relating the
pre-call state to the post-call state (failed calls relate a state to
itself or to the partially-mutated state, exactly as the code leaves it). -/
inductive Step : OrchState → OrchState → Prop
  | select (s : OrchState) (archetypeId userPrompt : String) (attachment : Option Attachment) :
      Step s (selectArchetype s archetypeId userPrompt attachment).1
  | propose (s : OrchState) :
      Step s (proposeNextPhase s).1
  | confirm (s : OrchState) (phaseIndex : Int) (gw : GwResult) :
      Step s (confirmPhase s phaseIndex gw).1
  | skip (s : OrchState) (phaseIndex : Int) :
      Step s (skipPhase s phaseIndex).1
  | completeDep (s : OrchState) (phaseIndex : Int) (deploymentResult : DeploymentResult) :
      Step s (completeDeploymentPhase s phaseIndex deploymentResult).1

/-- States reachable from a freshly constructed orchestrator by any
sequence of operation invocations. -/
inductive Reachable : OrchState → Prop
  | init (workspaceDir : String) : Reachable (initState workspaceDir)
  | step {s t : OrchState} : Reachable s → Step s t → Reachable t

/-! ## Derived notions used to state the claims -/

/-- The kind tag of a phase, in the dispatch order of `executePhase`:
`isDeployment` wins, then `isAzureDeployment`, then `isValidation`,
otherwise plain generation. -/
inductive PhaseKind
  | docker
  | azure
  | validation
  | generation
deriving DecidableEq, Repr

/-- Classify a phase by `executePhase` dispatch order. -/
def Phase.kind (p : Phase) : PhaseKind :=
  if p.isDeployment then PhaseKind.docker
  else if p.isAzureDeployment then PhaseKind.azure
  else if p.isValidation then PhaseKind.validation
  else PhaseKind.generation

/-- Whether an event is the "ready" event matching a suspension kind. -/
def Event.isReadyFor : Event → PhaseKind → Bool
  | Event.docker_deploy_ready _ _ _, PhaseKind.docker => true
  | Event.azure_deploy_ready _ _ _ _, PhaseKind.azure => true
  | Event.validation_ready _ _ _, PhaseKind.validation => true
  | _, _ => false

/-- Whether an event is a `phase_complete`. -/
def Event.isPhaseComplete : Event → Bool
  | Event.phase_complete _ _ _ _ _ => true
  | _ => false

/-- Whether an event is a `phase_proposal` or the terminal `completed`
emission, i.e. evidence that `proposeNextPhase` ran. -/
def Event.isAdvance : Event → Bool
  | Event.phase_proposal _ _ _ _ _ => true
  | Event.completedRun _ _ => true
  | _ => false

/-- Ordering discipline over the phase list: while an earlier phase is
still `pending`, any later phase is still `pending` or was `skipped`
out of order — it is never `in_progress`, `completed` or `error`. -/
def laterOk (phases : List Phase) : Prop :=
  ∀ i j q1 q2, i < j → phases.get? i = some q1 → phases.get? j = some q2 →
    q1.status = PhaseStatus.pending →
    q2.status = PhaseStatus.pending ∨ q2.status = PhaseStatus.skipped

/-- Every path recorded on some phase record is present in
`generatedFiles`. -/
def filesInv (s : OrchState) : Prop :=
  ∀ p, p ∈ s.phases → ∀ f, f ∈ p.files → f ∈ s.generatedFiles

/-- Boolean subsequence test (greedy): the first list occurs inside the
second, in order, not necessarily contiguously. -/
def isSubseqOf : List String → List String → Bool
  | [], _ => true
  | _ :: _, [] => false
  | a :: as, b :: bs => if a == b then isSubseqOf as bs else isSubseqOf (a :: as) bs

/-! ## Concrete runs used by witnesses and counterexamples -/

/-- A fresh orchestrator after `selectArchetype("fastapi-sqlite", ...)`. -/
def faSelected : OrchState :=
  (selectArchetype (initState ("ws")) ("fastapi-sqlite") ("make a todo api") none).1

/-- The phase record proposed first in that run (the `setup` phase). -/
def faPhase0 : Phase :=
  { id := "setup", name := "Project Setup"
    description := "Create requirements.txt, README.md, and project structure"
    files := [], optional := false, isValidation := false, isDeployment := false
    isAzureDeployment := false, index := 0, status := PhaseStatus.pending }

/-- The pending `crud` record of that run (index 4). -/
def faPhase4 : Phase :=
  { id := "crud", name := "CRUD Operations"
    description := "Database operations for all models"
    files := [], optional := false, isValidation := false, isDeployment := false
    isAzureDeployment := false, index := 4, status := PhaseStatus.pending }

/-- `faSelected` after confirming phase 0 with a successful generation. -/
def faAfter0 : OrchState :=
  (confirmPhase faSelected 0 (GwResult.ok ["requirements.txt", "README.md"] ("setup done"))).1

/-- ... after also confirming phase 1 with a successful generation. -/
def faAfter1 : OrchState :=
  (confirmPhase faAfter0 1 (GwResult.ok ["app/database.py", "app/models.py"] ("db done"))).1

/-- ... then confirming phase 2 while the gateway fails. -/
def faFail2 : OrchState × Except OrchError Unit :=
  confirmPhase faAfter1 2 (GwResult.fail ("syntax error"))

/-- `faSelected` after skipping the optional `auth` phase (index 3) out of
order. -/
def faSkip3 : OrchState :=
  (skipPhase faSelected 3).1

/-- A single pending validation-kind phase record. -/
def valPhase : Phase :=
  { id := "validate", name := "Validation & Fixes"
    description := "Run tests and fix any issues"
    files := [], optional := false, isValidation := true, isDeployment := false
    isAzureDeployment := false, index := 0, status := PhaseStatus.pending }

/-- A hand-built state whose only pending phase is `valPhase`, used to
exercise the validation branch of `confirmPhase`. -/
def valState : OrchState :=
  { initState ("ws") with phases := [valPhase], status := OrchStatus.awaiting_confirmation }

/-- `valState` after confirming its validation phase. -/
def valConfirmed : OrchState :=
  (confirmPhase valState 0 (GwResult.ok [] (""))).1

/-- A fresh orchestrator after selecting the `custom` archetype with a
request that mentions authentication and storage vocabulary. -/
def customSelected : OrchState :=
  (selectArchetype (initState ("ws")) ("custom") ("an api with login and a sql db") none).1

/-! ## Basic facts about the embedding -/

@[simp] theorem emit_phases (s : OrchState) (e : Event) : (emit s e).phases = s.phases := rfl

@[simp] theorem emit_generatedFiles (s : OrchState) (e : Event) :
    (emit s e).generatedFiles = s.generatedFiles := rfl

@[simp] theorem emit_status (s : OrchState) (e : Event) : (emit s e).status = s.status := rfl

@[simp] theorem emit_errors (s : OrchState) (e : Event) : (emit s e).errors = s.errors := rfl

@[simp] theorem emit_workspaceDir (s : OrchState) (e : Event) :
    (emit s e).workspaceDir = s.workspaceDir := rfl

@[simp] theorem emit_events (s : OrchState) (e : Event) :
    (emit s e).events = s.events ++ [e] := rfl

theorem proposeNextPhase_phases (s : OrchState) :
    (proposeNextPhase s).1.phases = s.phases := by
  unfold proposeNextPhase
  split <;> rfl

theorem proposeNextPhase_generatedFiles (s : OrchState) :
    (proposeNextPhase s).1.generatedFiles = s.generatedFiles := by
  unfold proposeNextPhase
  split <;> rfl

theorem proposeNextPhase_errors (s : OrchState) :
    (proposeNextPhase s).1.errors = s.errors := by
  unfold proposeNextPhase
  split <;> rfl

/-- `proposeNextPhase` appends exactly one event. -/
theorem proposeNextPhase_events (s : OrchState) :
    ∃ e, (proposeNextPhase s).1.events = s.events ++ [e] := by
  unfold proposeNextPhase
  split
  · exact ⟨_, rfl⟩
  · exact ⟨_, rfl⟩

/-- The event appended by `proposeNextPhase` is a `phase_proposal` or the
terminal `completedRun`; the status moves to `awaiting_confirmation` or
`completed` accordingly. -/
theorem proposeNextPhase_status (s : OrchState) :
    (proposeNextPhase s).1.status = OrchStatus.awaiting_confirmation ∨
      (proposeNextPhase s).1.status = OrchStatus.completed := by
  unfold proposeNextPhase
  split
  · exact Or.inr rfl
  · exact Or.inl rfl

theorem executePhase_phases (s : OrchState) (p : Phase) (gw : GwResult) :
    (executePhase s p gw).1.phases = s.phases := by
  unfold executePhase
  repeat' split
  all_goals rfl

theorem executePhase_generatedFiles (s : OrchState) (p : Phase) (gw : GwResult) :
    (executePhase s p gw).1.generatedFiles = s.generatedFiles := by
  unfold executePhase
  repeat' split
  all_goals rfl

theorem executePhase_status (s : OrchState) (p : Phase) (gw : GwResult) :
    (executePhase s p gw).1.status = s.status := by
  unfold executePhase
  repeat' split
  all_goals rfl

theorem executePhase_errors (s : OrchState) (p : Phase) (gw : GwResult) :
    (executePhase s p gw).1.errors = s.errors := by
  unfold executePhase
  repeat' split
  all_goals rfl

theorem executePhase_workspaceDir (s : OrchState) (p : Phase) (gw : GwResult) :
    (executePhase s p gw).1.workspaceDir = s.workspaceDir := by
  unfold executePhase
  repeat' split
  all_goals rfl

/-- `executePhase` only appends events to the state. -/
theorem executePhase_events (s : OrchState) (p : Phase) (gw : GwResult) :
    ∃ t, (executePhase s p gw).1.events = s.events ++ t := by
  unfold executePhase
  repeat' split
  all_goals simp [emit]

/-- The only error `executePhase` can produce is a gateway failure. -/
theorem executePhase_error_shape (s : OrchState) (p : Phase) (gw : GwResult) (e : OrchError)
    (h : (executePhase s p gw).2 = Except.error e) : ∃ m, e = OrchError.GenerationFailed m := by
  unfold executePhase at h
  revert h
  repeat' split
  all_goals intro h
  all_goals simp at h
  all_goals exact ⟨_, h.symm⟩

/-- Specification of the `findIndex`-style scan: the returned index is the
first pending one at or after the start offset. -/
theorem findPendingFrom_eq_some (l : List Phase) (n i : Nat) (p : Phase)
    (h : findPendingFrom l n = some (i, p)) :
    n ≤ i ∧ l.get? (i - n) = some p ∧ p.status = PhaseStatus.pending ∧
      ∀ m q, m < i - n → l.get? m = some q → q.status ≠ PhaseStatus.pending := by
  induction l generalizing n with
  | nil => exact absurd h (by simp [findPendingFrom])
  | cons a as ih =>
    by_cases ha : a.status = PhaseStatus.pending
    · have h2 : some (n, a) = some (i, p) := by
        simpa [findPendingFrom, ha] using h
      obtain ⟨h3, h4⟩ : n = i ∧ a = p := by
        injection h2 with h5
        exact ⟨congrArg Prod.fst h5, congrArg Prod.snd h5⟩
      subst h3; subst h4
      refine ⟨le_refl n, by simp, ha, ?_⟩
      intro m q hm
      omega
    · have h2 : findPendingFrom as (n + 1) = some (i, p) := by
        simpa [findPendingFrom, ha] using h
      obtain ⟨h3, h4, h5, h6⟩ := ih (n + 1) h2
      refine ⟨by omega, ?_, h5, ?_⟩
      · have h7 : i - n = (i - (n + 1)) + 1 := by omega
        rw [h7]
        simpa using h4
      · intro m q hm hq
        match m, hq with
        | 0, hq =>
          have : a = q := by simpa using hq
          exact this ▸ ha
        | Nat.succ m2, hq =>
          have hq2 : as.get? m2 = some q := by simpa using hq
          exact h6 m2 q (by omega) hq2

/-- `getNextPhase` returns the lowest-index pending phase. -/
theorem getNextPhase_spec (s : OrchState) (i : Nat) (p : Phase)
    (h : getNextPhase s = some (i, p)) :
    s.phases.get? i = some p ∧ p.status = PhaseStatus.pending ∧
      ∀ m q, m < i → s.phases.get? m = some q → q.status ≠ PhaseStatus.pending := by
  obtain ⟨h1, h2, h3, h4⟩ := findPendingFrom_eq_some s.phases 0 i p h
  simp only [Nat.sub_zero] at h2 h4
  exact ⟨h2, h3, h4⟩

/-- When no phase is pending, `getNextPhase` really finds none. -/
theorem findPendingFrom_eq_none (l : List Phase) (n : Nat)
    (h : findPendingFrom l n = none) :
    ∀ m q, l.get? m = some q → q.status ≠ PhaseStatus.pending := by
  induction l generalizing n with
  | nil => intro m q hq; exact absurd hq (by simp)
  | cons a as ih =>
    by_cases ha : a.status = PhaseStatus.pending
    · exact absurd h (by simp [findPendingFrom, ha])
    · have h2 : findPendingFrom as (n + 1) = none := by
        simpa [findPendingFrom, ha] using h
      intro m q hq
      match m, hq with
      | 0, hq =>
        have : a = q := by simpa using hq
        exact this ▸ ha
      | Nat.succ m2, hq =>
        have hq2 : as.get? m2 = some q := by simpa using hq
        exact ih (n + 1) h2 m2 q hq2

/-- Phase records instantiated from templates start `pending` with no
produced files. -/
theorem instantiateFrom_get (ts : List PhaseTemplate) (n i : Nat) (p : Phase)
    (h : (instantiateFrom ts n).get? i = some p) :
    p.status = PhaseStatus.pending ∧ p.files = [] := by
  induction ts generalizing n i with
  | nil => exact absurd h (by simp [instantiateFrom])
  | cons t ts2 ih =>
    match i, h with
    | 0, h =>
      have : instantiateTemplate t n = p := by simpa [instantiateFrom] using h
      subst this
      exact ⟨rfl, rfl⟩
    | Nat.succ i2, h =>
      have h2 : (instantiateFrom ts2 (n + 1)).get? i2 = some p := by
        simpa [instantiateFrom] using h
      exact ih (n + 1) i2 h2

theorem instantiateFrom_length (ts : List PhaseTemplate) (n : Nat) :
    (instantiateFrom ts n).length = ts.length := by
  induction ts generalizing n with
  | nil => rfl
  | cons t ts2 ih => simp [instantiateFrom, ih]

/-- The `index` fields of an instantiated list are consecutive from the
start offset. -/
theorem instantiateFrom_map_index (ts : List PhaseTemplate) (n : Nat) :
    (instantiateFrom ts n).map Phase.index = List.range' n ts.length := by
  induction ts generalizing n with
  | nil => rfl
  | cons t ts2 ih => simp [instantiateFrom, instantiateTemplate, List.range', ih]

/-- The `id` fields of an instantiated list are the template ids. -/
theorem instantiateFrom_map_id (ts : List PhaseTemplate) (n : Nat) :
    (instantiateFrom ts n).map Phase.id = ts.map PhaseTemplate.id := by
  induction ts generalizing n with
  | nil => rfl
  | cons t ts2 ih => simp [instantiateFrom, instantiateTemplate, ih]

/-! ## Shape lemmas for the transition functions -/

theorem confirmFailure_shape (s : OrchState) (i : Nat) (phase1 : Phase) (e : OrchError) :
    (confirmFailure s i phase1 e).phases =
        s.phases.set i { phase1 with status := PhaseStatus.error, error := some e.message } ∧
      (confirmFailure s i phase1 e).generatedFiles = s.generatedFiles ∧
      (confirmFailure s i phase1 e).errors =
        s.errors ++ [{ phase := phase1.id, error := e.message }] :=
  ⟨rfl, rfl, rfl⟩

theorem confirmSuccess_shape (s : OrchState) (i : Nat) (phase1 : Phase) (result : ExecResult) :
    (confirmSuccess s i phase1 result).1.phases =
        s.phases.set i { phase1 with status := PhaseStatus.completed
                                     files := result.files, result := some result } ∧
      (confirmSuccess s i phase1 result).1.generatedFiles = s.generatedFiles ++ result.files ∧
      (confirmSuccess s i phase1 result).1.errors = s.errors := by
  unfold confirmSuccess
  repeat' split
  all_goals
    simp [completedOf, proposeNextPhase_phases, proposeNextPhase_generatedFiles,
      proposeNextPhase_errors]

@[simp] theorem confirmStart_phases (s : OrchState) (i : Nat) (phase0 : Phase) :
    (confirmStart s i phase0).phases = s.phases.set i (inProgressOf phase0) := rfl

@[simp] theorem confirmStart_generatedFiles (s : OrchState) (i : Nat) (phase0 : Phase) :
    (confirmStart s i phase0).generatedFiles = s.generatedFiles := rfl

@[simp] theorem confirmStart_errors (s : OrchState) (i : Nat) (phase0 : Phase) :
    (confirmStart s i phase0).errors = s.errors := rfl

@[simp] theorem confirmStart_status (s : OrchState) (i : Nat) (phase0 : Phase) :
    (confirmStart s i phase0).status = OrchStatus.generating := rfl

@[simp] theorem confirmStart_workspaceDir (s : OrchState) (i : Nat) (phase0 : Phase) :
    (confirmStart s i phase0).workspaceDir = s.workspaceDir := rfl

@[simp] theorem confirmStart_events (s : OrchState) (i : Nat) (phase0 : Phase) :
    (confirmStart s i phase0).events =
      s.events ++ [Event.phase_start (inProgressOf phase0) i (s.phases.set i (inProgressOf phase0)).length] := rfl

/-- What `confirmPhase` can do to `phases` and `generatedFiles`: nothing
(rejected call), or overwrite the first pending phase with a terminal
record, appending exactly that record's produced files on success. -/
theorem confirmPhase_shape (s : OrchState) (k : Int) (gw : GwResult) :
    (confirmPhase s k gw).1 = s ∨
    ∃ i p, getNextPhase s = some (i, p) ∧ s.phases.get? i = some p ∧
      ((∃ msg, (confirmPhase s k gw).1.phases =
            s.phases.set i { p with status := PhaseStatus.error, error := some msg } ∧
          (confirmPhase s k gw).1.generatedFiles = s.generatedFiles) ∨
       (∃ result : ExecResult, (confirmPhase s k gw).1.phases =
            s.phases.set i { p with status := PhaseStatus.completed
                                    files := result.files, result := some result } ∧
          (confirmPhase s k gw).1.generatedFiles = s.generatedFiles ++ result.files)) := by
  unfold confirmPhase
  split
  · exact Or.inl rfl
  case _ i p2 hn =>
    split
    case isFalse hk => exact Or.inl rfl
    case isTrue hk =>
      split
      case _ hget => exact Or.inl rfl
      case _ phase0 hget =>
        obtain ⟨hp, hpend, hmin⟩ := getNextPhase_spec s i p2 hn
        have hp0 : phase0 = p2 := by
          have h2 := hget.symm.trans hp
          simpa using h2
        subst hp0
        split
        case _ s3 e he =>
          refine Or.inr ⟨i, phase0, hn, hp, Or.inl ⟨e.message, ?_, ?_⟩⟩
          · have h3 : s3.phases = (confirmStart s i phase0).phases := by
              have h4 := executePhase_phases (confirmStart s i phase0) (inProgressOf phase0) gw
              rw [he] at h4
              exact h4
            obtain ⟨c1, _c2, _c3⟩ := confirmFailure_shape s3 i (inProgressOf phase0) e
            show (confirmFailure s3 i (inProgressOf phase0) e).phases = _
            rw [c1, h3, confirmStart_phases, List.set_set]
            rfl
          · have h3 : s3.generatedFiles = s.generatedFiles := by
              have h4 := executePhase_generatedFiles (confirmStart s i phase0) (inProgressOf phase0) gw
              rw [he] at h4
              exact h4
            obtain ⟨_c1, c2, _c3⟩ := confirmFailure_shape s3 i (inProgressOf phase0) e
            show (confirmFailure s3 i (inProgressOf phase0) e).generatedFiles = _
            rw [c2, h3]
        case _ s3 result he =>
          refine Or.inr ⟨i, phase0, hn, hp, Or.inr ⟨result, ?_, ?_⟩⟩
          · have h3 : s3.phases = (confirmStart s i phase0).phases := by
              have h4 := executePhase_phases (confirmStart s i phase0) (inProgressOf phase0) gw
              rw [he] at h4
              exact h4
            obtain ⟨c1, _c2, _c3⟩ := confirmSuccess_shape s3 i (inProgressOf phase0) result
            rw [c1, h3, confirmStart_phases, List.set_set]
            rfl
          · have h3 : s3.generatedFiles = s.generatedFiles := by
              have h4 := executePhase_generatedFiles (confirmStart s i phase0) (inProgressOf phase0) gw
              rw [he] at h4
              exact h4
            obtain ⟨_c1, c2, _c3⟩ := confirmSuccess_shape s3 i (inProgressOf phase0) result
            rw [c2, h3]

/-- What `skipPhase` can do to `phases` and `generatedFiles`: nothing, or
mark one optional phase `skipped`. -/
theorem skipPhase_shape (s : OrchState) (k : Int) :
    (skipPhase s k).1 = s ∨
    ∃ p, 0 ≤ k ∧ s.phases.get? k.toNat = some p ∧ p.optional = true ∧
      (skipPhase s k).1.phases = s.phases.set k.toNat { p with status := PhaseStatus.skipped } ∧
      (skipPhase s k).1.generatedFiles = s.generatedFiles := by
  unfold skipPhase
  split
  · exact Or.inl rfl
  case _ p hget =>
    split
    case isTrue hopt => exact Or.inl rfl
    case isFalse hopt =>
      by_cases h0 : 0 ≤ k
      · rw [if_pos h0] at hget
        refine Or.inr ⟨p, h0, hget, by revert hopt; cases p.optional <;> simp, ?_, ?_⟩
        · simp [proposeNextPhase_phases]
        · simp [proposeNextPhase_generatedFiles]
      · rw [if_neg h0] at hget
        exact absurd hget (by simp)

theorem completeDeploymentPhase_phases (s : OrchState) (k : Int) (dr : DeploymentResult) :
    (completeDeploymentPhase s k dr).1.phases = s.phases := by
  unfold completeDeploymentPhase
  split
  · rfl
  · rw [proposeNextPhase_phases]
    rfl

theorem completeDeploymentPhase_generatedFiles (s : OrchState) (k : Int) (dr : DeploymentResult) :
    (completeDeploymentPhase s k dr).1.generatedFiles = s.generatedFiles := by
  unfold completeDeploymentPhase
  split
  · rfl
  · rw [proposeNextPhase_generatedFiles]
    rfl

theorem selectArchetype_generatedFiles (s : OrchState) (aid up : String) (att : Option Attachment) :
    (selectArchetype s aid up att).1.generatedFiles = s.generatedFiles := by
  unfold selectArchetype
  repeat' split
  all_goals rfl

/-- After `selectArchetype` the phase list is either untouched (unknown
archetype) or freshly instantiated from some template list. -/
theorem selectArchetype_phases (s : OrchState) (aid up : String) (att : Option Attachment) :
    (selectArchetype s aid up att).1.phases = s.phases ∨
    ∃ ts, (selectArchetype s aid up att).1.phases = instantiateFrom ts 0 := by
  unfold selectArchetype
  split
  · exact Or.inl rfl
  case _ arch harch =>
    by_cases hc : aid = "custom"
    · subst hc
      refine Or.inr ⟨customTemplates up att, ?_⟩
      simp [generateCustomPhases]
    · refine Or.inr ⟨arch.phases, ?_⟩
      simp [hc]

/-! ## Reachability invariants -/

theorem laterOk_set_terminal (phases : List Phase) (i0 : Nat) (p2 : Phase)
    (hold : laterOk phases) (hlen : i0 < phases.length)
    (hmin : ∀ m q, m < i0 → phases.get? m = some q → q.status ≠ PhaseStatus.pending)
    (hnp : p2.status ≠ PhaseStatus.pending) :
    laterOk (phases.set i0 p2) := by
  intro i j q1 q2 hij hgi hgj hq1
  by_cases hii : i = i0
  · subst hii
    rw [List.get?_set_eq_of_lt p2 hlen] at hgi
    have : p2 = q1 := by simpa using hgi
    exact absurd (this ▸ hq1) hnp
  · rw [List.get?_set_ne p2 phases (Ne.symm hii)] at hgi
    by_cases hjj : j = i0
    · subst hjj
      exact absurd hq1 (hmin i q1 hij hgi)
    · rw [List.get?_set_ne p2 phases (Ne.symm hjj)] at hgj
      exact hold i j q1 q2 hij hgi hgj hq1

theorem laterOk_set_skipped (phases : List Phase) (i0 : Nat) (p2 : Phase)
    (hold : laterOk phases) (hlen : i0 < phases.length)
    (hsk : p2.status = PhaseStatus.skipped) :
    laterOk (phases.set i0 p2) := by
  intro i j q1 q2 hij hgi hgj hq1
  by_cases hjj : j = i0
  · subst hjj
    rw [List.get?_set_eq_of_lt p2 hlen] at hgj
    have : p2 = q2 := by simpa using hgj
    exact Or.inr (this ▸ hsk)
  · rw [List.get?_set_ne p2 phases (Ne.symm hjj)] at hgj
    by_cases hii : i = i0
    · subst hii
      rw [List.get?_set_eq_of_lt p2 hlen] at hgi
      have h2 : p2 = q1 := by simpa using hgi
      rw [← h2, hsk] at hq1
      exact absurd hq1 (by simp)
    · rw [List.get?_set_ne p2 phases (Ne.symm hii)] at hgi
      exact hold i j q1 q2 hij hgi hgj hq1

/-- The ordering discipline holds in every reachable state. -/
theorem laterOk_of_reachable (s : OrchState) (hs : Reachable s) : laterOk s.phases := by
  induction hs with
  | init ws =>
    intro i j q1 q2 hij hgi hgj hq1
    exact absurd hgi (by simp [initState])
  | @step s2 t hs2 hstep ih =>
    cases hstep with
    | select aid up att =>
      rcases selectArchetype_phases s2 aid up att with h1 | ⟨ts, h1⟩
      · rw [h1]; exact ih
      · rw [h1]
        intro i j q1 q2 hij hgi hgj hq1
        exact Or.inl (instantiateFrom_get ts 0 j q2 hgj).1
    | propose =>
      rw [proposeNextPhase_phases]; exact ih
    | confirm k gw =>
      rcases confirmPhase_shape s2 k gw with h1 | ⟨i0, q, hn, hq, hcase⟩
      · rw [h1]; exact ih
      · obtain ⟨_, _, hmin⟩ := getNextPhase_spec s2 i0 q hn
        have hlen : i0 < s2.phases.length := (List.get?_eq_some.mp hq).1
        rcases hcase with ⟨msg, hph, _⟩ | ⟨result, hph, _⟩
        · rw [hph]
          exact laterOk_set_terminal s2.phases i0 _ ih hlen hmin (by simp)
        · rw [hph]
          exact laterOk_set_terminal s2.phases i0 _ ih hlen hmin (by simp)
    | skip k =>
      rcases skipPhase_shape s2 k with h1 | ⟨p, h0, hget, hopt, hph, _⟩
      · rw [h1]; exact ih
      · rw [hph]
        have hlen : k.toNat < s2.phases.length := (List.get?_eq_some.mp hget).1
        exact laterOk_set_skipped s2.phases k.toNat _ ih hlen rfl
    | completeDep k dr =>
      rw [completeDeploymentPhase_phases]; exact ih

/-- The `generatedFiles` coverage invariant holds in every reachable
state. -/
theorem filesInv_of_reachable (s : OrchState) (hs : Reachable s) : filesInv s := by
  induction hs with
  | init ws =>
    intro p hp
    exact absurd hp (by simp [initState])
  | @step s2 t hs2 hstep ih =>
    cases hstep with
    | select aid up att =>
      intro p hp f hf
      rw [selectArchetype_generatedFiles]
      rcases selectArchetype_phases s2 aid up att with h1 | ⟨ts, h1⟩
      · rw [h1] at hp
        exact ih p hp f hf
      · rw [h1] at hp
        obtain ⟨m, hm⟩ := List.get?_of_mem hp
        have h2 := (instantiateFrom_get ts 0 m p hm).2
        rw [h2] at hf
        exact absurd hf (by simp)
    | propose =>
      intro p hp f hf
      rw [proposeNextPhase_generatedFiles]
      rw [proposeNextPhase_phases] at hp
      exact ih p hp f hf
    | confirm k gw =>
      intro p hp f hf
      rcases confirmPhase_shape s2 k gw with h1 | ⟨i0, q, hn, hq, hcase⟩
      · rw [h1] at hp ⊢
        exact ih p hp f hf
      · rcases hcase with ⟨msg, hph, hgen⟩ | ⟨result, hph, hgen⟩
        · rw [hgen]
          rw [hph] at hp
          rcases List.mem_or_eq_of_mem_set hp with hp2 | hp2
          · exact ih p hp2 f hf
          · subst hp2
            exact ih q (List.get?_mem hq) f hf
        · rw [hgen]
          rw [hph] at hp
          rcases List.mem_or_eq_of_mem_set hp with hp2 | hp2
          · exact List.mem_append_left _ (ih p hp2 f hf)
          · subst hp2
            exact List.mem_append_right _ hf
    | skip k =>
      intro p hp f hf
      rcases skipPhase_shape s2 k with h1 | ⟨q, h0, hget, hopt, hph, hgen⟩
      · rw [h1] at hp ⊢
        exact ih p hp f hf
      · rw [hgen]
        rw [hph] at hp
        rcases List.mem_or_eq_of_mem_set hp with hp2 | hp2
        · exact ih p hp2 f hf
        · subst hp2
          exact ih q (List.get?_mem hget) f hf
    | completeDep k dr =>
      intro p hp f hf
      rw [completeDeploymentPhase_generatedFiles]
      rw [completeDeploymentPhase_phases] at hp
      exact ih p hp f hf

/-- Every transition only appends to `generatedFiles`. -/
theorem step_generatedFiles_append (s t : OrchState) (h : Step s t) :
    ∃ u, t.generatedFiles = s.generatedFiles ++ u := by
  cases h with
  | select aid up att =>
    exact ⟨[], by rw [selectArchetype_generatedFiles, List.append_nil]⟩
  | propose =>
    exact ⟨[], by rw [proposeNextPhase_generatedFiles, List.append_nil]⟩
  | confirm k gw =>
    rcases confirmPhase_shape s k gw with h1 | ⟨i0, q, hn, hq, ⟨msg, hph, hgen⟩ | ⟨result, hph, hgen⟩⟩
    · exact ⟨[], by rw [h1, List.append_nil]⟩
    · exact ⟨[], by rw [hgen, List.append_nil]⟩
    · exact ⟨result.files, hgen⟩
  | skip k =>
    rcases skipPhase_shape s k with h1 | ⟨p, h0, hget, hopt, hph, hgen⟩
    · exact ⟨[], by rw [h1, List.append_nil]⟩
    · exact ⟨[], by rw [hgen, List.append_nil]⟩
  | completeDep k dr =>
    exact ⟨[], by rw [completeDeploymentPhase_generatedFiles, List.append_nil]⟩

theorem confirmSuccess_outcome (s : OrchState) (i : Nat) (phase1 : Phase) (result : ExecResult) :
    (confirmSuccess s i phase1 result).2 = Except.ok () := by
  unfold confirmSuccess
  repeat' split
  all_goals rfl

/-- The fastapi-sqlite demo state is reachable. -/
theorem faSelected_reachable : Reachable faSelected :=
  Reachable.step (Reachable.init ("ws"))
    (Step.select (initState ("ws")) ("fastapi-sqlite") ("make a todo api") none)

/-! ## The claims -/

/-- Claim C1 (amended): for every state and every integer `k`,
`confirmPhase(k)` fails with `PhaseMismatch` exactly when `k` differs from
the index of the lowest-index pending phase — the index `getNextPhase`
returns — regardless of whether that index was ever actually proposed;
when no phase is pending, every `k` is rejected. -/
theorem confirm_mismatch_iff (s : OrchState) (k : Int) (gw : GwResult) :
    (confirmPhase s k gw).2 = Except.error OrchError.PhaseMismatch ↔
      Option.map (fun ip => ((ip.1 : Nat) : Int)) (getNextPhase s) ≠ some k := by
  unfold confirmPhase
  split
  case _ hn =>
    rw [hn]
    simp
  case _ i p hn =>
    rw [hn]
    split
    case isTrue hk =>
      apply iff_of_false
      · intro hL
        split at hL
        · simp at hL
        · split at hL
          case _ s3 e he =>
            simp only at hL
            have he2 : e = OrchError.PhaseMismatch := by simpa using hL
            obtain ⟨m, hm⟩ := executePhase_error_shape _ _ gw e (by rw [he])
            rw [hm] at he2
            cases he2
          case _ s3 result he =>
            rw [confirmSuccess_outcome] at hL
            cases hL
      · intro hR
        exact hR (by rw [hk]; rfl)
    case isFalse hk =>
      apply iff_of_true rfl
      intro hEq
      apply hk
      have h2 : ((i : Nat) : Int) = k := by simpa using hEq
      exact h2.symm

/-- Claim C1 counterexample: after `selectArchetype` and before any call to
`proposeNextPhase`, no proposal has ever been made (ghost `lastProposal`
is still `none`), yet `confirmPhase(0)` is accepted rather than rejected
with `PhaseMismatch` — the guard compares against the first pending index,
not against the most recently proposed one. -/
theorem confirm_unproposed_index_accepted :
    faSelected.lastProposal = none ∧
      (confirmPhase faSelected 0 (GwResult.ok ["requirements.txt"] ("done"))).2 ≠
        Except.error OrchError.PhaseMismatch := by
  refine ⟨rfl, fun h => ?_⟩
  have h2 : (confirmPhase faSelected 0 (GwResult.ok ["requirements.txt"] ("done"))).2 =
      Except.ok () := rfl
  exact Except.noConfusion (h2.symm.trans h)

/-- Claim C2 (amended): in every reachable state, while an earlier phase is
still `pending`, every later phase is still `pending` or was `skipped`
(out of order, by `skipPhase`, which validates only the `optional` flag);
it is never `in_progress`, `completed` or `error`. -/
theorem later_phase_waits (s : OrchState) (hs : Reachable s) (i j : Nat) (q1 q2 : Phase)
    (hij : i < j) (hgi : s.phases.get? i = some q1) (hgj : s.phases.get? j = some q2)
    (hq1 : q1.status = PhaseStatus.pending) :
    q2.status = PhaseStatus.pending ∨ q2.status = PhaseStatus.skipped :=
  laterOk_of_reachable s hs i j q1 q2 hij hgi hgj hq1

theorem later_phase_waits_witness :
    faPhase4.status = PhaseStatus.pending ∨ faPhase4.status = PhaseStatus.skipped :=
  later_phase_waits faSkip3
    (Reachable.step faSelected_reachable (Step.skip faSelected 3))
    0 4 faPhase0 faPhase4 (by decide) rfl rfl rfl

/-- Claim C2 counterexample: immediately after selecting `fastapi-sqlite`,
`skipPhase(3)` succeeds on the optional `auth` phase although phases 0..2
are still pending — a later phase reaches the terminal status `skipped`
while an earlier phase is still `pending`, so terminal statuses are not
reached in non-decreasing index order. -/
theorem skip_out_of_order_allowed :
    (faSkip3.phases.get? 0).map Phase.status = some PhaseStatus.pending ∧
      (faSkip3.phases.get? 3).map Phase.status = some PhaseStatus.skipped :=
  ⟨rfl, rfl⟩

/-- Claim C3 (amended): selecting `fastapi-sqlite` yields exactly 10
phases (not 9): the `plan` event lists all 10 phases in catalog order, and
the first `phase_proposal` names phase index 0 with id `setup`. -/
theorem fastapi_plan_and_first_proposal :
    (selectArchetype (initState ("ws")) ("fastapi-sqlite") ("make a todo api") none).2 =
        Except.ok faSelected.phases ∧
      faSelected.phases.length = 10 ∧
      faSelected.phases.map Phase.id =
        ["setup", "database", "schemas", "auth", "crud", "api", "tests", "validate",
         "docker-run", "azure-deploy"] ∧
      faSelected.events = [Event.plan ("FastAPI + SQLite Backend") faSelected.phases] ∧
      (proposeNextPhase faSelected).1.events =
        faSelected.events ++
          [Event.phase_proposal faPhase0 0 10 ("Ready to generate: Project Setup")
            ("Create requirements.txt, README.md, and project structure")] ∧
      faPhase0.id = "setup" ∧ faPhase0.index = 0 :=
  ⟨rfl, rfl, rfl, rfl, rfl, rfl, rfl⟩

/-- Claim C3 counterexample: the phase list of `fastapi-sqlite` has 10
entries, not 9 as claimed. -/
theorem fastapi_phase_count_not_nine :
    faSelected.phases.length = 10 ∧ ¬ faSelected.phases.length = 9 := by
  exact ⟨rfl, by decide⟩

/-- Claim C4 (amended): when the gateway raises
`GenerationFailed("syntax error")` during `confirmPhase` of phase index 2
of `fastapi-sqlite`, that phase (`schemas`, not `crud`) gets status
`error`, `errors` gains exactly the one entry
`{phase: "schemas", error: "syntax error"}`, a `phase_error` event is
emitted, and `confirmPhase` re-raises the same error to its caller. -/
theorem gateway_failure_at_phase_two :
    (faFail2.1.phases.get? 2).map Phase.status = some PhaseStatus.error ∧
      (faFail2.1.phases.get? 2).map Phase.id = some "schemas" ∧
      faAfter1.errors = [] ∧
      faFail2.1.errors = [{ phase := "schemas", error := "syntax error" }] ∧
      (∃ ps pe, faFail2.1.events =
          faAfter1.events ++
            [Event.phase_start ps 2 10, Event.phase_error pe 2 ("syntax error")] ∧
          pe.id = "schemas" ∧ pe.status = PhaseStatus.error) ∧
      faFail2.2 = Except.error (OrchError.GenerationFailed ("syntax error")) :=
  ⟨rfl, rfl, rfl, rfl, ⟨_, _, rfl, rfl, rfl⟩, rfl⟩

/-- Claim C4 counterexample: in the claimed scenario the recorded error
entry names phase `schemas` (the id of phase index 2), not `crud`. -/
theorem error_entry_not_crud :
    faFail2.1.errors = [{ phase := "schemas", error := "syntax error" }] ∧
      ¬ faFail2.1.errors = [{ phase := "crud", error := "syntax error" }] := by
  exact ⟨rfl, by decide⟩

/-- Claim C6: for a phase whose `optional` flag is false, `skipPhase` on
that phase's position fails with `PhaseNotOptional` and returns the state
completely unchanged. -/
theorem skip_not_optional (s : OrchState) (i : Nat) (p : Phase)
    (hget : s.phases.get? i = some p) (hopt : p.optional = false) :
    skipPhase s (i : Int) = (s, Except.error (OrchError.PhaseNotOptional p.name)) := by
  have h0 : (0 : Int) ≤ (i : Int) := Int.ofNat_nonneg i
  have hsc : (if (0 : Int) ≤ (i : Int) then s.phases.get? ((i : Int)).toNat else none) = some p := by
    rw [if_pos h0]
    simpa using hget
  unfold skipPhase
  split
  case _ hnone =>
    rw [hsc] at hnone
    cases hnone
  case _ q hq =>
    rw [hsc] at hq
    have hq2 : p = q := by simpa using hq
    subst hq2
    rw [if_pos hopt]

theorem skip_not_optional_witness :
    skipPhase faSelected 0 =
      (faSelected, Except.error (OrchError.PhaseNotOptional ("Project Setup"))) :=
  skip_not_optional faSelected 0 faPhase0 rfl rfl

/-- Claim C7: when no phase is pending, `proposeNextPhase` moves the run to
`completed`, emits the terminal `completed` event carrying the accumulated
`generatedFiles`, and returns no proposal; otherwise it moves to
`awaiting_confirmation` and emits a `phase_proposal` naming the
lowest-index pending phase. -/
theorem propose_next_phase_spec (s : OrchState) :
    (getNextPhase s = none →
        (proposeNextPhase s).2 = none ∧
        (proposeNextPhase s).1.status = OrchStatus.completed ∧
        (proposeNextPhase s).1.events =
          s.events ++ [Event.completedRun s.workspaceDir s.generatedFiles]) ∧
    (∀ i p, getNextPhase s = some (i, p) →
        (proposeNextPhase s).2 = some p ∧
        (proposeNextPhase s).1.status = OrchStatus.awaiting_confirmation ∧
        (proposeNextPhase s).1.events =
          s.events ++ [Event.phase_proposal p i s.phases.length
            ("Ready to generate: " ++ p.name) p.description] ∧
        s.phases.get? i = some p ∧ p.status = PhaseStatus.pending ∧
        ∀ m q, m < i → s.phases.get? m = some q → q.status ≠ PhaseStatus.pending) := by
  constructor
  · intro hn
    unfold proposeNextPhase
    rw [hn]
    exact ⟨rfl, rfl, rfl⟩
  · intro i p hn
    obtain ⟨h1, h2, h3⟩ := getNextPhase_spec s i p hn
    unfold proposeNextPhase
    rw [hn]
    exact ⟨rfl, rfl, rfl, h1, h2, h3⟩

theorem propose_next_phase_spec_witness :
    (proposeNextPhase (initState ("ws"))).2 = none ∧
      (proposeNextPhase faSelected).2 = some faPhase0 := by
  constructor
  · exact ((propose_next_phase_spec (initState ("ws"))).1 rfl).1
  · exact ((propose_next_phase_spec faSelected).2 0 faPhase0 rfl).1

/-- Claim C8: every transition from a reachable state appends to
`generatedFiles` (all previous entries are kept in order) and results in a
state where every path of every phase record's `files` list is contained
in `generatedFiles`. -/
theorem generated_files_monotone (s t : OrchState) (hs : Reachable s) (hstep : Step s t) :
    (∃ u, t.generatedFiles = s.generatedFiles ++ u) ∧
      ∀ p, p ∈ t.phases → ∀ f, f ∈ p.files → f ∈ t.generatedFiles :=
  ⟨step_generatedFiles_append s t hstep,
   filesInv_of_reachable t (Reachable.step hs hstep)⟩

theorem generated_files_monotone_witness :
    (∃ u, faSkip3.generatedFiles = faSelected.generatedFiles ++ u) ∧
      ∀ p, p ∈ faSkip3.phases → ∀ f, f ∈ p.files → f ∈ faSkip3.generatedFiles :=
  generated_files_monotone faSelected faSkip3 faSelected_reachable (Step.skip faSelected 3)

/-- Claim C10: for an index that addresses no phase record,
`completeDeploymentPhase` performs no bounds or status validation: it hits
a runtime type error (reading `files` of `undefined`) before emitting any
event, so no `phase_complete` is emitted, `proposeNextPhase` is not
called, and the state is returned unchanged with the type error. -/
theorem complete_deployment_out_of_range (s : OrchState) (k : Int) (dr : DeploymentResult)
    (hk : k < 0 ∨ (s.phases.length : Int) ≤ k) :
    completeDeploymentPhase s k dr =
      (s, Except.error (OrchError.TypeError
        ("Cannot read properties of undefined (reading files)"))) := by
  have hnone : (if (0 : Int) ≤ k then s.phases.get? k.toNat else none) = none := by
    rcases hk with hk | hk
    · rw [if_neg (by omega)]
    · rw [if_pos (by omega)]
      exact List.get?_eq_none.mpr (by omega)
  unfold completeDeploymentPhase
  split
  case _ h => rfl
  case _ q hq =>
    rw [hnone] at hq
    cases hq

theorem complete_deployment_out_of_range_witness :
    completeDeploymentPhase faSelected 42 { success := true, summary := none } =
      (faSelected, Except.error (OrchError.TypeError
        ("Cannot read properties of undefined (reading files)"))) :=
  complete_deployment_out_of_range faSelected 42 { success := true, summary := none }
    (Or.inr (by decide))

theorem proposeNextPhase_advance (s : OrchState) :
    ∃ e, (proposeNextPhase s).1.events = s.events ++ [e] ∧ e.isAdvance = true := by
  unfold proposeNextPhase
  split
  · exact ⟨_, rfl, rfl⟩
  · exact ⟨_, rfl, rfl⟩

/-- For a plain generation result, `confirmSuccess` emits `phase_complete`
and then auto-advances through `proposeNextPhase`. -/
theorem confirmSuccess_generation_spec (s : OrchState) (i : Nat) (p1 : Phase)
    (result : ExecResult) (hrd : result.requiresDeployment = false)
    (hrv : result.requiresValidation = false) :
    ∃ e2, (confirmSuccess s i p1 result).1.events =
        s.events ++ [Event.phase_complete (completedOf p1 result) i
          result.files result.summary none, e2] ∧
      e2.isAdvance = true ∧
      ((confirmSuccess s i p1 result).1.status = OrchStatus.awaiting_confirmation ∨
        (confirmSuccess s i p1 result).1.status = OrchStatus.completed) := by
  have hred : confirmSuccess s i p1 result =
      ((proposeNextPhase (emit
          { s with phases := s.phases.set i (completedOf p1 result)
                   generatedFiles := s.generatedFiles ++ result.files }
          (Event.phase_complete (completedOf p1 result) i result.files result.summary none))).1,
        Except.ok ()) := by
    simp only [confirmSuccess]
    rw [if_neg (show ¬(result.requiresDeployment = true ∧
            result.deploymentType = some ("docker")) from by simp [hrd]),
        if_neg (show ¬(result.requiresDeployment = true ∧
            result.deploymentType = some ("azure")) from by simp [hrd]),
        if_neg (show ¬(result.requiresValidation = true) from by simp [hrv]),
        if_pos (show result.requiresDeployment = false ∧ result.requiresValidation = false
          from ⟨hrd, hrv⟩)]
  rw [hred]
  obtain ⟨e2, hev, hadv⟩ := proposeNextPhase_advance (emit
    { s with phases := s.phases.set i (completedOf p1 result)
             generatedFiles := s.generatedFiles ++ result.files }
    (Event.phase_complete (completedOf p1 result) i result.files result.summary none))
  refine ⟨e2, ?_, hadv, proposeNextPhase_status _⟩
  rw [hev]
  simp

/-- Claim C5: consider a `confirmPhase` call that succeeds (returns `ok`)
on the lowest-index pending phase `p`.  If `p`'s kind is `validation`,
docker deployment or cloud (Azure) deployment, the call leaves the
orchestrator status at `generating` (where it stays until
`completeDeploymentPhase` intervenes), and the events it appends contain
the matching ready event (`validation_ready`, `docker_deploy_ready`,
`azure_deploy_ready`) but no `phase_complete` and no evidence of
`proposeNextPhase` (no `phase_proposal`, no terminal `completed`).  If
`p` is a plain generation phase, the appended events contain a
`phase_complete` and a `proposeNextPhase` emission, and the status moves
to `awaiting_confirmation` or `completed`. -/
theorem confirm_kind_dispatch (s : OrchState) (k : Int) (gw : GwResult) (t : OrchState)
    (i : Nat) (p : Phase)
    (hok : confirmPhase s k gw = (t, Except.ok ()))
    (hn : getNextPhase s = some (i, p)) :
    (p.kind ≠ PhaseKind.generation →
        t.status = OrchStatus.generating ∧
        t.events = s.events ++ t.events.drop s.events.length ∧
        (t.events.drop s.events.length).any (fun e => e.isReadyFor p.kind) = true ∧
        (t.events.drop s.events.length).all
          (fun e => !e.isPhaseComplete && !e.isAdvance) = true) ∧
    (p.kind = PhaseKind.generation →
        t.events = s.events ++ t.events.drop s.events.length ∧
        (t.events.drop s.events.length).any (fun e => e.isPhaseComplete) = true ∧
        (t.events.drop s.events.length).any (fun e => e.isAdvance) = true ∧
        (t.status = OrchStatus.awaiting_confirmation ∨ t.status = OrchStatus.completed)) := by
  unfold confirmPhase at hok
  split at hok
  case _ hn2 => rw [hn2] at hn; cases hn
  case _ i2 p2 hn2 =>
    obtain ⟨hi2, hp2⟩ : i = i2 ∧ p = p2 := by
      have h2 := hn.symm.trans hn2
      injection h2 with h3
      exact ⟨congrArg Prod.fst h3, congrArg Prod.snd h3⟩
    subst hi2; subst hp2
    split at hok
    case isFalse hk =>
      have h2 := congrArg Prod.snd hok
      simp at h2
    case isTrue hk =>
      split at hok
      case _ hget =>
        have h2 := congrArg Prod.snd hok
        simp at h2
      case _ phase0 hget =>
        have hp0 : phase0 = p := by
          have h2 := hget.symm.trans (getNextPhase_spec s i p hn).1
          simpa using h2
        subst hp0
        split at hok
        case _ s3 e he =>
          have h2 := congrArg Prod.snd hok
          simp at h2
        case _ s3 result he =>
          have ht : t = (confirmSuccess s3 i (inProgressOf phase0) result).1 := by
            rw [hok]
          by_cases hd : phase0.isDeployment = true
          · have hkind : phase0.kind = PhaseKind.docker := by
              unfold Phase.kind
              rw [if_pos hd]
            have he4 : (s3, (Except.ok result : Except OrchError ExecResult)) =
                (emit (confirmStart s i phase0)
                    (Event.log ("\n🐳 Packaging and running application in Docker...\n")),
                  Except.ok ({ files := [], summary := "Docker deployment initiated"
                               deploymentType := some "docker", requiresDeployment := true } : ExecResult)) := by
              rw [← he]
              unfold executePhase
              rw [if_pos (show (inProgressOf phase0).isDeployment = true from hd)]
            obtain ⟨hs3, hres⟩ := Prod.mk.inj he4
            have hres2 : result = { files := [], summary := "Docker deployment initiated"
                                    deploymentType := some "docker", requiresDeployment := true } := by
              injection hres
            subst hs3
            subst hres2
            subst ht
            rw [hkind]
            constructor
            · intro _
              refine ⟨?_, ?_, ?_, ?_⟩
              all_goals
                simp [confirmSuccess, Event.isReadyFor, Event.isPhaseComplete, Event.isAdvance,
                  List.drop_left]
            · intro hgen
              cases hgen
          · by_cases ha : phase0.isAzureDeployment = true
            · have hkind : phase0.kind = PhaseKind.azure := by
                unfold Phase.kind
                rw [if_neg hd, if_pos ha]
              cases gw with
              | fail msg =>
                exfalso
                have he4 : (executePhase (confirmStart s i phase0) (inProgressOf phase0)
                    (GwResult.fail msg)).2 = Except.error (OrchError.GenerationFailed msg) := by
                  unfold executePhase
                  rw [if_neg (show ¬ (inProgressOf phase0).isDeployment = true from hd),
                      if_pos (show (inProgressOf phase0).isAzureDeployment = true from ha)]
                rw [he] at he4
                simp at he4
              | ok files2 summ =>
                have he4 : (s3, (Except.ok result : Except OrchError ExecResult)) =
                    (emit (emit (confirmStart s i phase0)
                          (Event.log ("\n☁️ Preparing Azure deployment...\n")))
                        (Event.console_trace ("Starting Azure infrastructure generation") ("info")),
                      Except.ok ({ files := files2, summary := summ
                                   deploymentType := some "azure", requiresDeployment := true } : ExecResult)) := by
                  rw [← he]
                  unfold executePhase
                  rw [if_neg (show ¬ (inProgressOf phase0).isDeployment = true from hd),
                      if_pos (show (inProgressOf phase0).isAzureDeployment = true from ha)]
                obtain ⟨hs3, hres⟩ := Prod.mk.inj he4
                have hres2 : result = { files := files2, summary := summ
                                        deploymentType := some "azure", requiresDeployment := true } := by
                  injection hres
                subst hs3
                subst hres2
                subst ht
                rw [hkind]
                constructor
                · intro _
                  refine ⟨?_, ?_, ?_, ?_⟩
                  all_goals
                    simp [confirmSuccess, Event.isReadyFor, Event.isPhaseComplete, Event.isAdvance,
                      List.drop_left]
                · intro hgen
                  cases hgen
            · by_cases hv : phase0.isValidation = true
              · have hkind : phase0.kind = PhaseKind.validation := by
                  unfold Phase.kind
                  rw [if_neg hd, if_neg ha, if_pos hv]
                have he4 : (s3, (Except.ok result : Except OrchError ExecResult)) =
                    (emit (emit (confirmStart s i phase0)
                          (Event.log ("\n🧪 Running tests to validate generated code...\n")))
                        (Event.console_trace ("Initiating validation phase") ("info")),
                      Except.ok ({ files := [], summary := "Validation initiated"
                                   deploymentType := some "validation", requiresValidation := true } : ExecResult)) := by
                  rw [← he]
                  unfold executePhase
                  rw [if_neg (show ¬ (inProgressOf phase0).isDeployment = true from hd),
                      if_neg (show ¬ (inProgressOf phase0).isAzureDeployment = true from ha),
                      if_pos (show (inProgressOf phase0).isValidation = true from hv)]
                obtain ⟨hs3, hres⟩ := Prod.mk.inj he4
                have hres2 : result = { files := [], summary := "Validation initiated"
                                        deploymentType := some "validation", requiresValidation := true } := by
                  injection hres
                subst hs3
                subst hres2
                subst ht
                rw [hkind]
                constructor
                · intro _
                  refine ⟨?_, ?_, ?_, ?_⟩
                  all_goals
                    simp [confirmSuccess, Event.isReadyFor, Event.isPhaseComplete, Event.isAdvance,
                      List.drop_left]
                · intro hgen
                  cases hgen
              · have hkind : phase0.kind = PhaseKind.generation := by
                  unfold Phase.kind
                  rw [if_neg hd, if_neg ha, if_neg hv]
                cases gw with
                | fail msg =>
                  exfalso
                  have he4 : (executePhase (confirmStart s i phase0) (inProgressOf phase0)
                      (GwResult.fail msg)).2 = Except.error (OrchError.GenerationFailed msg) := by
                    unfold executePhase
                    rw [if_neg (show ¬ (inProgressOf phase0).isDeployment = true from hd),
                        if_neg (show ¬ (inProgressOf phase0).isAzureDeployment = true from ha),
                        if_neg (show ¬ (inProgressOf phase0).isValidation = true from hv)]
                  rw [he] at he4
                  simp at he4
                | ok files2 summ =>
                  have he4 : (s3, (Except.ok result : Except OrchError ExecResult)) =
                      (confirmStart s i phase0,
                        Except.ok ({ files := files2, summary := summ } : ExecResult)) := by
                    rw [← he]
                    unfold executePhase
                    rw [if_neg (show ¬ (inProgressOf phase0).isDeployment = true from hd),
                        if_neg (show ¬ (inProgressOf phase0).isAzureDeployment = true from ha),
                        if_neg (show ¬ (inProgressOf phase0).isValidation = true from hv)]
                  obtain ⟨hs3, hres⟩ := Prod.mk.inj he4
                  have hres2 : result = { files := files2, summary := summ } := by
                    injection hres
                  subst hs3
                  subst hres2
                  subst ht
                  rw [hkind]
                  constructor
                  · intro hne
                    exact absurd rfl hne
                  · intro _
                    obtain ⟨e2, hev, hadv, hst⟩ := confirmSuccess_generation_spec
                      (confirmStart s i phase0) i (inProgressOf phase0)
                      { files := files2, summary := summ } rfl rfl
                    refine ⟨?_, ?_, ?_, hst⟩
                    · rw [hev]
                      simp [List.drop_left]
                    · rw [hev]
                      simp [Event.isPhaseComplete, List.drop_left]
                    · rw [hev]
                      simp only [Event.isAdvance] at hadv
                      simp [Event.isAdvance, List.drop_left, hadv]

theorem confirm_kind_dispatch_witness :
    (valPhase.kind ≠ PhaseKind.generation →
        valConfirmed.status = OrchStatus.generating ∧
        valConfirmed.events = valState.events ++ valConfirmed.events.drop valState.events.length ∧
        (valConfirmed.events.drop valState.events.length).any
          (fun e => e.isReadyFor valPhase.kind) = true ∧
        (valConfirmed.events.drop valState.events.length).all
          (fun e => !e.isPhaseComplete && !e.isAdvance) = true) ∧
    (valPhase.kind = PhaseKind.generation →
        valConfirmed.events = valState.events ++ valConfirmed.events.drop valState.events.length ∧
        (valConfirmed.events.drop valState.events.length).any (fun e => e.isPhaseComplete) = true ∧
        (valConfirmed.events.drop valState.events.length).any (fun e => e.isAdvance) = true ∧
        (valConfirmed.status = OrchStatus.awaiting_confirmation ∨
          valConfirmed.status = OrchStatus.completed)) :=
  confirm_kind_dispatch valState 0 (GwResult.ok [] ("")) valConfirmed 0 valPhase rfl rfl

theorem instantiateFrom_index_range (ts : List PhaseTemplate) :
    (instantiateFrom ts 0).map Phase.index = List.range (instantiateFrom ts 0).length := by
  rw [instantiateFrom_map_index, instantiateFrom_length, List.range_eq_range']

/-- `findArchetype` only succeeds on the four catalog identifiers. -/
theorem findArchetype_cases (aid : String) (arch : Archetype)
    (harch : findArchetype aid = some arch) :
    (aid = "fastapi-sqlite" ∧ arch = fastapiSqliteArch) ∨
    (aid = "react-fastapi" ∧ arch = reactFastapiArch) ∨
    (aid = "nodejs-express" ∧ arch = nodejsExpressArch) ∨
    (aid = "custom" ∧ arch = customArch) := by
  by_cases h1 : aid = "fastapi-sqlite"
  · subst h1
    have h0 : findArchetype ("fastapi-sqlite") = some fastapiSqliteArch := rfl
    rw [h0] at harch
    exact Or.inl ⟨rfl, by simpa using harch.symm⟩
  · by_cases h2 : aid = "react-fastapi"
    · subst h2
      have h0 : findArchetype ("react-fastapi") = some reactFastapiArch := rfl
      rw [h0] at harch
      exact Or.inr (Or.inl ⟨rfl, by simpa using harch.symm⟩)
    · by_cases h3 : aid = "nodejs-express"
      · subst h3
        have h0 : findArchetype ("nodejs-express") = some nodejsExpressArch := rfl
        rw [h0] at harch
        exact Or.inr (Or.inr (Or.inl ⟨rfl, by simpa using harch.symm⟩))
      · by_cases h4 : aid = "custom"
        · subst h4
          have h0 : findArchetype ("custom") = some customArch := rfl
          rw [h0] at harch
          exact Or.inr (Or.inr (Or.inr ⟨rfl, by simpa using harch.symm⟩))
        · exfalso
          have h1b : ¬("fastapi-sqlite" = aid) := fun h => h1 h.symm
          have h2b : ¬("react-fastapi" = aid) := fun h => h2 h.symm
          have h3b : ¬("nodejs-express" = aid) := fun h => h3 h.symm
          have h4b : ¬("custom" = aid) := fun h => h4 h.symm
          have hnone : findArchetype aid = none := by
            unfold findArchetype ARCHETYPES
            simp [List.find?, h1b, h2b, h3b, h4b]
          rw [hnone] at harch
          cases harch

/-- Claim C9: for every catalog archetype and every request text and
attachment, the instantiated phase list is non-empty with `index` fields
exactly `0..n-1` in order; for `custom` the list is
`generateCustomPhases` of exactly the request text and attachment, it
always contains `setup`, `core`, `api`, `tests`, `validate` in that
relative order, and it contains `database`/`schemas`, `auth` and
`frontend` exactly when the respective storage, authentication and
frontend vocabulary matches. -/
theorem instantiate_phases_spec (aid : String) (arch : Archetype) (s : OrchState)
    (up : String) (att : Option Attachment) (harch : findArchetype aid = some arch) :
    ((selectArchetype s aid up att).1.phases ≠ [] ∧
      (selectArchetype s aid up att).1.phases.map Phase.index =
        List.range (selectArchetype s aid up att).1.phases.length) ∧
    (aid = "custom" →
      (selectArchetype s aid up att).1.phases = generateCustomPhases up att ∧
      isSubseqOf ["setup", "core", "api", "tests", "validate"]
        ((generateCustomPhases up att).map Phase.id) = true ∧
      (("database" ∈ (generateCustomPhases up att).map Phase.id ∧
        "schemas" ∈ (generateCustomPhases up att).map Phase.id) ↔ hasDatabase up att = true) ∧
      ("auth" ∈ (generateCustomPhases up att).map Phase.id ↔ hasAuth up att = true) ∧
      ("frontend" ∈ (generateCustomPhases up att).map Phase.id ↔ hasFrontend up att = true)) := by
  rcases findArchetype_cases aid arch harch with ⟨ha1, ha2⟩ | ⟨ha1, ha2⟩ | ⟨ha1, ha2⟩ | ⟨ha1, ha2⟩
  · subst ha1; subst ha2
    refine ⟨⟨?_, ?_⟩, fun hc => absurd hc (by decide)⟩
    · show instantiateFrom fastapiSqliteArch.phases 0 ≠ []
      decide
    · show (instantiateFrom fastapiSqliteArch.phases 0).map Phase.index =
        List.range (instantiateFrom fastapiSqliteArch.phases 0).length
      exact instantiateFrom_index_range _
  · subst ha1; subst ha2
    refine ⟨⟨?_, ?_⟩, fun hc => absurd hc (by decide)⟩
    · show instantiateFrom reactFastapiArch.phases 0 ≠ []
      decide
    · show (instantiateFrom reactFastapiArch.phases 0).map Phase.index =
        List.range (instantiateFrom reactFastapiArch.phases 0).length
      exact instantiateFrom_index_range _
  · subst ha1; subst ha2
    refine ⟨⟨?_, ?_⟩, fun hc => absurd hc (by decide)⟩
    · show instantiateFrom nodejsExpressArch.phases 0 ≠ []
      decide
    · show (instantiateFrom nodejsExpressArch.phases 0).map Phase.index =
        List.range (instantiateFrom nodejsExpressArch.phases 0).length
      exact instantiateFrom_index_range _
  · subst ha1; subst ha2
    refine ⟨⟨?_, ?_⟩, fun _ => ⟨rfl, ?_, ?_, ?_, ?_⟩⟩
    · show generateCustomPhases up att ≠ []
      unfold generateCustomPhases customTemplates
      simp [instantiateFrom]
    · show (generateCustomPhases up att).map Phase.index =
        List.range (generateCustomPhases up att).length
      unfold generateCustomPhases
      exact instantiateFrom_index_range _
    all_goals
      cases hdb : hasDatabase up att <;> cases hau : hasAuth up att <;>
        cases hfr : hasFrontend up att <;>
        simp [generateCustomPhases, instantiateFrom_map_id, customTemplates, hdb, hau, hfr] <;>
        decide

theorem instantiate_phases_spec_witness :
    (((selectArchetype (initState ("ws")) ("custom")
          ("an api with login and a sql db") none).1.phases ≠ [] ∧
      (selectArchetype (initState ("ws")) ("custom")
          ("an api with login and a sql db") none).1.phases.map Phase.index =
        List.range (selectArchetype (initState ("ws")) ("custom")
          ("an api with login and a sql db") none).1.phases.length) ∧
    (("custom" : String) = "custom" →
      (selectArchetype (initState ("ws")) ("custom")
          ("an api with login and a sql db") none).1.phases =
        generateCustomPhases ("an api with login and a sql db") none ∧
      isSubseqOf ["setup", "core", "api", "tests", "validate"]
        ((generateCustomPhases ("an api with login and a sql db") none).map Phase.id) = true ∧
      (("database" ∈ (generateCustomPhases ("an api with login and a sql db") none).map Phase.id ∧
        "schemas" ∈ (generateCustomPhases ("an api with login and a sql db") none).map Phase.id) ↔
          hasDatabase ("an api with login and a sql db") none = true) ∧
      ("auth" ∈ (generateCustomPhases ("an api with login and a sql db") none).map Phase.id ↔
          hasAuth ("an api with login and a sql db") none = true) ∧
      ("frontend" ∈ (generateCustomPhases ("an api with login and a sql db") none).map Phase.id ↔
          hasFrontend ("an api with login and a sql db") none = true))) :=
  instantiate_phases_spec ("custom") customArch (initState ("ws"))
    ("an api with login and a sql db") none rfl

end AppCreator
